import Mathlib

/-!
Shallow embedding of the OmniSage session/context-management core
(`src/omnisage/core/chat.py` together with the model-configuration record it
reads).  Python machine integers are modelled as `Nat` (all quantities involved
are non-negative; Python `max(0, a - b)` coincides with truncated `Nat`
subtraction), Python `Optional` as `Option`, Python string truthiness as an
explicit emptiness test, and exceptions as explicit outcome values.
-/

/-- `ModelPromptFormat` from the model configuration record: the six template
fields read by `ChatSession._format_prompt`. -/
structure ModelPromptFormat where
  system_prefix : String
  system_suffix : String
  user_prefix : String
  user_suffix : String
  assistant_prefix : String
  assistant_suffix : String
deriving Repr, DecidableEq

/-- The fields of the model-group configuration record that
`ChatSession` reads: `max_output_length`, `context_window`, `stop_words`,
`prompt_format` and `system_prompt`. -/
structure ModelConfig where
  max_output_length : Nat
  context_window : Nat
  stop_words : List String
  prompt_format : ModelPromptFormat
  system_prompt : Option String
deriving Repr, DecidableEq

/-- Python truthiness of an `Optional[str]`: `None` and `""` are falsy. -/
def pyTruthyStr : Option String → Bool
  | none => false
  | some s => s != ""

/-- Python truthiness of an `Optional[int]` chat id: `None` and `0` are falsy. -/
def pyTruthyChatId : Option Nat → Bool
  | none => false
  | some n => n != 0

/-- `len(formatted_prompt.split())` - Python `str.split()` with no argument
splits on runs of whitespace and drops empty pieces. -/
def estimateTokens (s : String) : Nat :=
  ((s.split Char.isWhitespace).filter (fun w => w != "")).length

/-- The arithmetic core of `ChatSession._calculate_required_context`, taking
the estimated prompt token count directly.  Python computes
`output_tokens = max(0, context_size - estimated_prompt_tokens)` in the
degraded branch; truncated `Nat` subtraction is exactly that value. -/
def calcBudget (cfg : ModelConfig) (estimated_prompt_tokens : Nat)
    (max_tokens : Option Nat) : Nat × Nat :=
  let output_tokens := max_tokens.getD cfg.max_output_length
  let required_tokens := estimated_prompt_tokens + output_tokens
  let units_needed :=
    (required_tokens + cfg.max_output_length - 1) / cfg.max_output_length
  let context_size := min (units_needed * cfg.max_output_length) cfg.context_window
  if context_size < required_tokens then
    (context_size, context_size - estimated_prompt_tokens)
  else
    (context_size, output_tokens)

/-- `ChatSession._calculate_required_context`: estimates the prompt tokens of
the formatted prompt, then applies the budget arithmetic. -/
def calculateRequiredContext (cfg : ModelConfig) (formatted_prompt : String)
    (max_tokens : Option Nat) : Nat × Nat :=
  calcBudget cfg (estimateTokens formatted_prompt) max_tokens

/-- The classifier outcome mapping of `_select_model_group`:
`"programming" if is_programming else "default"`. -/
def classifierGroup (is_programming : Bool) : String :=
  if is_programming then "programming" else "default"

/-- `ChatSession._select_model_group` as a function of the current
`model_group` field and the router verdict.  The second component records
whether the classifier (query router) was invoked. -/
def selectModelGroup (model_group : Option String) (is_programming : Bool) :
    String × Bool :=
  if pyTruthyStr model_group then (model_group.getD "", false)
  else (classifierGroup is_programming, true)

/-- One row returned by `DatabaseManager.get_chat_messages`
(`role`, `content`, `model_group`), in `created_at` order. -/
structure DbMessage where
  role : String
  content : String
  model_group : Option String
deriving Repr, DecidableEq

/-- The `model_group` adopted by `ChatSession._load_chat_history`: the
`model_group` of the last assistant message whose `model_group` is truthy,
`none` when no such message exists. -/
def replayedModelGroup (msgs : List DbMessage) : Option String :=
  match (msgs.filter fun m => m.role == "assistant" && pyTruthyStr m.model_group).getLast? with
  | some m => m.model_group
  | none => none

/-- History entries as `ChatSession` builds them: singleton dicts
`{role: content}`, modelled as (role, content) pairs. -/
def loadedHistory (msgs : List DbMessage) : List (String × String) :=
  msgs.map fun m => (m.role, m.content)

/-- `ChatSession` mutable state: `model_group`, `conversation_history`
and `chat_id`. -/
structure SessionState where
  model_group : Option String
  conversation_history : List (String × String)
  chat_id : Option Nat
deriving Repr, DecidableEq

/-- `ChatSession.__init__`: fresh fields, then `_load_chat_history` when the
given `chat_id` is truthy; `msgs` is the row list the database collaborator
returns for that id. -/
def initSession (chat_id : Option Nat) (msgs : List DbMessage) : SessionState :=
  if pyTruthyChatId chat_id then
    { model_group := replayedModelGroup msgs
      conversation_history := loadedHistory msgs
      chat_id := chat_id }
  else
    { model_group := none, conversation_history := [], chat_id := chat_id }

/-- The system fragment list of `_format_prompt`: one fragment when
`config.system_prompt` is truthy, none otherwise. -/
def systemFragments (cfg : ModelConfig) : List String :=
  match cfg.system_prompt with
  | some sp =>
      if sp = "" then []
      else [ cfg.prompt_format.system_prefix ++ sp ++ cfg.prompt_format.system_suffix]
  | none => []

/-- The fragments one history entry contributes in `_format_prompt`: the loop
body runs two independent membership tests (`"user" in entry`,
`"assistant" in entry`) on the singleton dict. -/
def entryFragments (pf : ModelPromptFormat) (e : String × String) : List String :=
  (if e.1 = "user" then [ pf.user_prefix ++ e.2 ++ pf.user_suffix] else []) ++
  (if e.1 = "assistant" then [ pf.assistant_prefix ++ e.2 ++ pf.assistant_suffix] else [])

/-- `ChatSession._format_prompt`, with the group already selected (the method
re-runs selection only when `model_group` is falsy; `generate_response`
assigns it first): system fragment, then the history loop, then the new user
turn, then a bare assistant-prefix fragment, joined by newlines. -/
def formatPrompt (cfg : ModelConfig) (history : List (String × String))
    (user_input : String) : String :=
  let pf := cfg.prompt_format
  let formatted := systemFragments cfg
  let formatted := history.foldl (fun acc e => acc ++ entryFragments pf e) formatted
  let formatted := formatted ++ [ pf.user_prefix ++ user_input ++ pf.user_suffix]
  let formatted := formatted ++ [ pf.assistant_prefix]
  String.intercalate "\n" formatted

/-- Spec-side rendering of one history turn, for comparison with
`entryFragments`: user turns use the user template, assistant turns the
assistant template. -/
def turnFragment (pf : ModelPromptFormat) (e : String × String) : String :=
  if e.1 = "user" then pf.user_prefix ++ e.2 ++ pf.user_suffix
  else pf.assistant_prefix ++ e.2 ++ pf.assistant_suffix

/-- The inference-model handle: the only attribute `generate_response`
touches is the mutable context-window size `n_ctx`. -/
structure ModelHandle where
  n_ctx : Nat
deriving Repr, DecidableEq

/-- The collaborators `generate_response` consults: the configuration lookup
of the model manager and the boolean query router. -/
structure Collaborators where
  getConfig : String → ModelConfig
  is_programming : String → Bool

/-- The argument record of the engine call `model(formatted_prompt,
max_tokens=..., temperature=..., stop=..., stream=...)`.  Temperature is
forwarded unchanged and does not affect any claim, so it is omitted. -/
structure GenInvocation where
  prompt : String
  max_tokens : Option Nat
  stop : List String
  stream : Bool
deriving Repr, DecidableEq

/-- One `DatabaseManager.save_message(chat_id, role, content, model_group)`
call issued by `generate_response`. -/
structure SaveRecord where
  chat_id : Nat
  role : String
  content : String
  model_group : Option String
deriving Repr, DecidableEq

/-- Outcome of the streaming engine call: either it yields `chunks` and ends
normally, or it yields `chunks` and then raises `err`. -/
inductive StreamGen where
  | done (chunks : List String)
  | errorAfter (chunks : List String) (err : String)
deriving Repr, DecidableEq

/-- Observable result of `generate_response(..., stream=True)` and of fully
consuming the returned generator: the engine invocation issued, the handle
after the `n_ctx` assignment attempt, the chunk texts yielded to the caller,
the propagated exception (if any), the session state afterwards, and the
persistence calls issued. -/
structure StreamRun where
  invocation : GenInvocation
  handle : ModelHandle
  emitted : List String
  error : Option String
  finalState : SessionState
  saves : List SaveRecord
deriving Repr, DecidableEq

/-- Observable result of `generate_response(..., stream=False)`. -/
structure BatchRun where
  invocation : GenInvocation
  handle : ModelHandle
  result : Except String String
  finalState : SessionState
  saves : List SaveRecord
deriving Repr

/-- `generate_response` with `stream=True`, followed by full consumption of
`chunk_generator`.  Oracles: `set_ctx_fails` says whether the `model.n_ctx`
assignment raises (the code catches and discards that exception), `gen` is
the engine outcome.  Note the code passes the caller's `max_tokens` argument
to the engine, not the `output_tokens` component of the computed budget, and
in this streaming path the history append sits inside the
`if self.chat_id:` block. -/
def generateResponseStream (co : Collaborators) (s : SessionState)
    (h : ModelHandle) (q : String) (max_tokens : Option Nat)
    (set_ctx_fails : Bool) (gen : StreamGen) : StreamRun :=
  let mg := if pyTruthyStr s.model_group then s.model_group
            else some (classifierGroup (co.is_programming q))
  let cfg := co.getConfig (mg.getD "")
  let formatted := formatPrompt cfg s.conversation_history q
  let budget := calculateRequiredContext cfg formatted max_tokens
  let handle := if set_ctx_fails then h else { h with n_ctx := budget.1 }
  let inv : GenInvocation :=
    { prompt := formatted, max_tokens := max_tokens, stop := cfg.stop_words
      stream := true }
  match gen with
  | StreamGen.errorAfter chunks err =>
      { invocation := inv, handle := handle
        emitted := chunks.filter (fun c => c != "")
        error := some err
        finalState := { s with model_group := mg }
        saves := [] }
  | StreamGen.done chunks =>
      let emitted := chunks.filter (fun c => c != "")
      if pyTruthyChatId s.chat_id then
        let complete := (String.join emitted).trim
        { invocation := inv, handle := handle, emitted := emitted
          error := none
          finalState := { s with
            model_group := mg,
            conversation_history := s.conversation_history ++
              [("user", q), ("assistant", complete)] }
          saves := [{ chat_id := s.chat_id.getD 0, role := "assistant"
                      content := complete, model_group := mg }] }
      else
        { invocation := inv, handle := handle, emitted := emitted
          error := none
          finalState := { s with model_group := mg }
          saves := [] }

/-- `generate_response` with `stream=False`.  Oracles as in the streaming
variant; `gen` is the engine outcome (`text` of the single completion, or a
raised exception).  The history append here is unconditional; only the
persistence call is guarded by `if self.chat_id:`. -/
def generateResponseBatch (co : Collaborators) (s : SessionState)
    (h : ModelHandle) (q : String) (max_tokens : Option Nat)
    (set_ctx_fails : Bool) (gen : Except String String) : BatchRun :=
  let mg := if pyTruthyStr s.model_group then s.model_group
            else some (classifierGroup (co.is_programming q))
  let cfg := co.getConfig (mg.getD "")
  let formatted := formatPrompt cfg s.conversation_history q
  let budget := calculateRequiredContext cfg formatted max_tokens
  let handle := if set_ctx_fails then h else { h with n_ctx := budget.1 }
  let inv : GenInvocation :=
    { prompt := formatted, max_tokens := max_tokens, stop := cfg.stop_words
      stream := false }
  match gen with
  | Except.error e =>
      { invocation := inv, handle := handle, result := Except.error e
        finalState := { s with model_group := mg }
        saves := [] }
  | Except.ok text =>
      let complete := text.trim
      { invocation := inv, handle := handle, result := Except.ok complete
        finalState := { s with
          model_group := mg,
          conversation_history := s.conversation_history ++
            [("user", q), ("assistant", complete)] }
        saves := if pyTruthyChatId s.chat_id then
            [{ chat_id := s.chat_id.getD 0, role := "assistant"
               content := complete, model_group := mg }]
          else [] }

/-- An all-empty prompt template. -/
def pfEmpty : ModelPromptFormat :=
  { system_prefix := "", system_suffix := "", user_prefix := "", user_suffix := ""
    assistant_prefix := "", assistant_suffix := "" }

/-- The group configuration of the budget scenario: allocation granularity
(`max_output_length`) 100 tokens, context window capped at 300 tokens. -/
def cfgW : ModelConfig :=
  { max_output_length := 100, context_window := 300, stop_words := []
    prompt_format := pfEmpty, system_prompt := none }

/-- A query of exactly 250 whitespace-separated words, so the formatted
prompt under `cfgW` is estimated at 250 tokens. -/
def q250 : String := String.intercalate " " (List.replicate 250 "w")

/-- A session with a group already assigned and no persisted chat id. -/
def sG : SessionState :=
  { model_group := some "default", conversation_history := [], chat_id := none }

/-- Collaborators returning `cfgW` for every group. -/
def coW : Collaborators :=
  { getConfig := fun _ => cfgW, is_programming := fun _ => false }

/-- A handle whose context window starts at 100. -/
def h100 : ModelHandle := { n_ctx := 100 }

/-- A fully populated prompt template for concrete witnesses. -/
def pfT : ModelPromptFormat :=
  { system_prefix := "<s>", system_suffix := "</s>", user_prefix := "U:"
    user_suffix := "/U", assistant_prefix := "A:", assistant_suffix := "/A" }

/-- A concrete configuration with a system prompt, for witnesses. -/
def cfgT : ModelConfig :=
  { max_output_length := 4, context_window := 8, stop_words := ["stop"]
    prompt_format := pfT, system_prompt := some "sys" }

/-- A session with a group already assigned, no history, no chat id. -/
def sP : SessionState :=
  { model_group := some "programming", conversation_history := [], chat_id := none }

/-- Claim C3: with `max_output_length = 100`, `max_context_length = 300`
(the field `_calculate_required_context` reads is named `context_window`), an
estimated prompt of 250 tokens and a requested output of 100 tokens, the
budgeter returns `(context_size, output_tokens) = (300, 50)`: required 350
quantizes up to 400, clamps to 300, and since 300 < 350 the output budget
degrades to `max(0, 300 - 250) = 50`. -/
theorem calcBudget_scenario_300_50 :
    calcBudget cfgW 250 (some 100) = (300, 50) := by decide

/-- Claim C1 (refuting evidence): at the C3 scenario the budgeter shrinks the
output budget to 50, yet `generate_response` invokes the engine with the
caller's original `max_tokens=100` argument - the computed `output_tokens` is
never passed on.  So the generation engine is NOT capped at the shrunk
value. -/
theorem engine_cap_is_callers_max_tokens :
    (generateResponseBatch coW sG h100 q250 (some 100) false
        (Except.ok "out")).invocation.max_tokens = some 100 ∧
    (calcBudget cfgW 250 (some 100)).2 = 50 ∧
    some 100 ≠ some (50 : Nat) := by
  exact ⟨rfl, by decide, by decide⟩

/-- Claim C2 (refuting evidence): a streaming generation that completes
without error in a session with no persisted chat id appends NOTHING to the
in-memory history (the history update is nested inside the `if self.chat_id:`
block), while the batch path appends the user/assistant pair
unconditionally. -/
theorem streaming_without_chat_id_drops_history :
    (generateResponseStream coW sG h100 "q" none false
        (StreamGen.done ["Hello"])).error = none ∧
    (generateResponseStream coW sG h100 "q" none false
        (StreamGen.done ["Hello"])).finalState.conversation_history = [] ∧
    (generateResponseStream coW sG h100 "q" none false
        (StreamGen.done ["Hello"])).saves = [] ∧
    (generateResponseBatch coW sG h100 "q" none false
        (Except.ok "Hello")).finalState.conversation_history =
      [("user", "q"), ("assistant", "Hello".trim)] := by
  exact ⟨rfl, rfl, rfl, rfl⟩

/-- Closed form of the context-size component of the budget: the quantized
requirement clamped to the context window. -/
theorem calcBudget_fst (cfg : ModelConfig) (e : Nat) (mt : Option Nat) :
    (calcBudget cfg e mt).1 =
      min ((e + mt.getD cfg.max_output_length + cfg.max_output_length - 1) /
            cfg.max_output_length * cfg.max_output_length) cfg.context_window := by
  simp only [calcBudget]
  split <;> rfl

/-- Claim C4: for a fixed requested output, the returned `context_size` is
monotone in the estimated prompt token count, and the returned
`output_tokens` equals `max(0, context_size - estimated_prompt_tokens)`
(truncated subtraction) exactly when the clamped context is smaller than the
requirement, the caller's request otherwise. -/
theorem calcBudget_monotone (cfg : ModelConfig) (mt : Option Nat) (e1 e2 : Nat)
    (hm : 0 < cfg.max_output_length) (he : e1 ≤ e2) :
    (calcBudget cfg e1 mt).1 ≤ (calcBudget cfg e2 mt).1 ∧
    (calcBudget cfg e1 mt).2 =
      (if (calcBudget cfg e1 mt).1 < e1 + mt.getD cfg.max_output_length
       then (calcBudget cfg e1 mt).1 - e1
       else mt.getD cfg.max_output_length) := by
  constructor
  · rw [calcBudget_fst, calcBudget_fst]
    exact min_le_min
      (Nat.mul_le_mul (Nat.div_le_div_right (by omega)) le_rfl) le_rfl
  · rw [calcBudget_fst]
    simp only [calcBudget]
    split <;> rfl

/-- Witness for `calcBudget_monotone` at the C3-style scenario. -/
theorem calcBudget_monotone_witness :
    0 < cfgW.max_output_length ∧ 250 ≤ 260 ∧
    ((calcBudget cfgW 250 (some 100)).1 ≤ (calcBudget cfgW 260 (some 100)).1 ∧
     (calcBudget cfgW 250 (some 100)).2 =
       (if (calcBudget cfgW 250 (some 100)).1 <
            250 + (some 100).getD cfgW.max_output_length
        then (calcBudget cfgW 250 (some 100)).1 - 250
        else (some 100).getD cfgW.max_output_length)) :=
  ⟨by decide, by decide,
    calcBudget_monotone cfgW (some 100) 250 260 (by decide) (by decide)⟩

/-- When an entry's role is `user` or `assistant`, the loop body contributes
exactly the one fragment of the matching template. -/
theorem entryFragments_eq_turnFragment (pf : ModelPromptFormat)
    (e : String × String) (h : e.1 = "user" ∨ e.1 = "assistant") :
    entryFragments pf e = [turnFragment pf e] := by
  rcases h with h | h <;> simp [entryFragments, turnFragment, h]

/-- The history loop of `_format_prompt` appends one fragment per
well-roled turn, in history order. -/
theorem foldl_entryFragments (pf : ModelPromptFormat)
    (l : List (String × String)) (init : List String)
    (h : ∀ e ∈ l, e.1 = "user" ∨ e.1 = "assistant") :
    l.foldl (fun acc e => acc ++ entryFragments pf e) init =
      init ++ l.map (turnFragment pf) := by
  induction l generalizing init with
  | nil => simp
  | cons a t ih =>
    simp only [List.foldl_cons, List.map_cons]
    rw [entryFragments_eq_turnFragment pf a (h a (List.mem_cons_self a t)),
      ih _ (fun e he => h e (List.mem_cons_of_mem a he))]
    simp

/-- Claim C6: for every history whose turns are user or assistant turns, the
rendered prompt is the newline-join of: the optional system fragment, one
template fragment per history turn in input order (user turns with the user
template, assistant turns with the assistant template), the new user turn
wrapped in the user template, and exactly one trailing bare assistant-prefix
fragment with no suffix. -/
theorem formatPrompt_renders_history_in_order (cfg : ModelConfig)
    (hist : List (String × String)) (input : String)
    (h : ∀ e ∈ hist, e.1 = "user" ∨ e.1 = "assistant") :
    formatPrompt cfg hist input =
      String.intercalate "\n"
        (systemFragments cfg ++ hist.map (turnFragment cfg.prompt_format) ++
         [ cfg.prompt_format.user_prefix ++ input ++ cfg.prompt_format.user_suffix,
           cfg.prompt_format.assistant_prefix]) := by
  simp only [formatPrompt]
  rw [foldl_entryFragments _ _ _ h]
  simp

/-- Witness for `formatPrompt_renders_history_in_order` on a concrete
two-turn history. -/
theorem formatPrompt_renders_history_in_order_witness :
    formatPrompt cfgT [("user", "hi"), ("assistant", "yo")] "next" =
      String.intercalate "\n"
        (systemFragments cfgT ++
         [("user", "hi"), ("assistant", "yo")].map (turnFragment cfgT.prompt_format) ++
         [ cfgT.prompt_format.user_prefix ++ "next" ++ cfgT.prompt_format.user_suffix,
           cfgT.prompt_format.assistant_prefix]) :=
  formatPrompt_renders_history_in_order cfgT [("user", "hi"), ("assistant", "yo")]
    "next" (by decide)

/-- A group replayed from persisted history is always truthy (non-empty):
`_load_chat_history` filters on a truthy `model_group` before taking the
last assistant message. -/
theorem replayedModelGroup_truthy (msgs : List DbMessage) (g : String)
    (h : replayedModelGroup msgs = some g) : g ≠ "" := by
  unfold replayedModelGroup at h
  cases hg : (msgs.filter fun m =>
      m.role == "assistant" && pyTruthyStr m.model_group).getLast? with
  | none => rw [hg] at h; exact absurd h (by simp)
  | some m =>
    rw [hg] at h
    have hm : m ∈ msgs.filter fun m =>
        m.role == "assistant" && pyTruthyStr m.model_group := by
      obtain ⟨hne, hx⟩ :=
        List.mem_getLast?_eq_getLast (Option.mem_def.2 hg)
      exact hx ▸ List.getLast_mem hne
    have hp := (List.mem_filter.1 hm).2
    have hpt : pyTruthyStr m.model_group = true := by
      simp only [Bool.and_eq_true] at hp
      exact hp.2
    have h2 : m.model_group = some g := h
    rw [h2] at hpt
    simpa [pyTruthyStr] using hpt

/-- Claim C5: once `model_group` holds a value assigned by the classifier or
replayed from a persisted chat, the selection step returns that value without
invoking the classifier (second component `false`), and neither streaming nor
batch generation ever changes it, whatever the later query contains. -/
theorem model_group_assigned_once (g : String) (b : Bool) (co : Collaborators)
    (s : SessionState) (hh : ModelHandle) (q : String) (mt : Option Nat)
    (scf : Bool) (gen : StreamGen) (genb : Except String String)
    (hg : (∃ b0, g = classifierGroup b0) ∨
          ∃ msgs, replayedModelGroup msgs = some g)
    (hs : s.model_group = some g) :
    selectModelGroup s.model_group b = (g, false) ∧
    (generateResponseStream co s hh q mt scf gen).finalState.model_group = some g ∧
    (generateResponseBatch co s hh q mt scf genb).finalState.model_group = some g := by
  have hne : g ≠ "" := by
    rcases hg with ⟨b0, rfl⟩ | ⟨msgs, hr⟩
    · cases b0 <;> simp [classifierGroup]
    · exact replayedModelGroup_truthy _ _ hr
  have htg : pyTruthyStr (some g) = true := by
    simpa [pyTruthyStr] using hne
  refine ⟨?_, ?_, ?_⟩
  · rw [hs]
    simp [selectModelGroup, htg]
  · cases gen with
    | errorAfter cs e => simp [generateResponseStream, hs, htg]
    | done cs =>
      simp only [generateResponseStream, hs, htg, if_true]
      split <;> rfl
  · cases genb with
    | error e => simp [generateResponseBatch, hs, htg]
    | ok text => simp [generateResponseBatch, hs, htg]

/-- Witness for `model_group_assigned_once`: a session that classified its
first query as programming keeps that group. -/
theorem model_group_assigned_once_witness :
    selectModelGroup sP.model_group false = ("programming", false) ∧
    (generateResponseStream coW sP h100 "later question" none false
        (StreamGen.done ["x"])).finalState.model_group = some "programming" ∧
    (generateResponseBatch coW sP h100 "later question" none false
        (Except.ok "x")).finalState.model_group = some "programming" :=
  model_group_assigned_once "programming" false coW sP h100 "later question"
    none false (StreamGen.done ["x"]) (Except.ok "x")
    (Or.inl ⟨true, rfl⟩) rfl

/-- Claim C7: when streaming generation raises after emitting some fragments,
the caller receives exactly the non-empty chunk texts yielded before the
failure and then the propagated exception; the in-memory history is unchanged
and no persistence write is issued. -/
theorem streaming_error_commits_nothing (co : Collaborators) (s : SessionState)
    (hh : ModelHandle) (q : String) (mt : Option Nat) (scf : Bool)
    (chunks : List String) (err : String) :
    (generateResponseStream co s hh q mt scf
        (StreamGen.errorAfter chunks err)).emitted =
      chunks.filter (fun c => c != "") ∧
    (generateResponseStream co s hh q mt scf
        (StreamGen.errorAfter chunks err)).error = some err ∧
    (generateResponseStream co s hh q mt scf
        (StreamGen.errorAfter chunks err)).finalState.conversation_history =
      s.conversation_history ∧
    (generateResponseStream co s hh q mt scf
        (StreamGen.errorAfter chunks err)).saves = [] :=
  ⟨rfl, rfl, rfl, rfl⟩

/-- Helper for C10: with the `n_ctx` assignment failing, a streaming run is
identical to the run where it succeeds, except that the handle keeps its
previous context size. -/
theorem generateResponseStream_ctx_fail (co : Collaborators) (s : SessionState)
    (hh : ModelHandle) (q : String) (mt : Option Nat) (gen : StreamGen) :
    generateResponseStream co s hh q mt true gen =
      { generateResponseStream co s hh q mt false gen with handle := hh } := by
  cases gen with
  | errorAfter cs e => rfl
  | done cs =>
    simp only [generateResponseStream]
    split <;> rfl

/-- Helper for C10: the batch analogue of
`generateResponseStream_ctx_fail`. -/
theorem generateResponseBatch_ctx_fail (co : Collaborators) (s : SessionState)
    (hh : ModelHandle) (q : String) (mt : Option Nat)
    (genb : Except String String) :
    generateResponseBatch co s hh q mt true genb =
      { generateResponseBatch co s hh q mt false genb with handle := hh } := by
  cases genb with
  | error e => rfl
  | ok text => rfl

/-- Claim C10: if assigning the computed context size to the handle raises,
the exception is swallowed: the whole observable run (invocation, emitted
output, errors, final state, persistence writes) is the same as when the
assignment succeeds, except that the handle keeps its previous context size.
Generation never fails because the context-size application failed. -/
theorem ctx_apply_failure_harmless (co : Collaborators) (s : SessionState)
    (hh : ModelHandle) (q : String) (mt : Option Nat) (gen : StreamGen)
    (genb : Except String String) :
    (generateResponseStream co s hh q mt true gen).handle = hh ∧
    generateResponseStream co s hh q mt true gen =
      { generateResponseStream co s hh q mt false gen with handle := hh } ∧
    (generateResponseBatch co s hh q mt true genb).handle = hh ∧
    generateResponseBatch co s hh q mt true genb =
      { generateResponseBatch co s hh q mt false genb with handle := hh } := by
  refine ⟨?_, generateResponseStream_ctx_fail co s hh q mt gen, ?_,
    generateResponseBatch_ctx_fail co s hh q mt genb⟩
  · rw [generateResponseStream_ctx_fail co s hh q mt gen]
  · rw [generateResponseBatch_ctx_fail co s hh q mt genb]

/-- Claim C9: a session constructed from a truthy persisted chat id whose
stored turns are `[user:"hi", assistant:"hello" (model_group = g)]` adopts
`model_group = g`, the selection step then returns `g` without invoking the
classifier, and the next rendered prompt reproduces the two turn contents
verbatim, in order, before the new user turn and the trailing bare
assistant-prefix fragment. -/
theorem persisted_session_roundtrip (g : String) (mgu : Option String)
    (cfg : ModelConfig) (q : String) (b : Bool) (hg : g ≠ "") :
    (initSession (some 1)
        [⟨"user", "hi", mgu⟩, ⟨"assistant", "hello", some g⟩]).model_group =
      some g ∧
    selectModelGroup
      (initSession (some 1)
        [⟨"user", "hi", mgu⟩, ⟨"assistant", "hello", some g⟩]).model_group b =
      (g, false) ∧
    formatPrompt cfg
      (initSession (some 1)
        [⟨"user", "hi", mgu⟩, ⟨"assistant", "hello", some g⟩]).conversation_history
      q =
      String.intercalate "\n"
        (systemFragments cfg ++
         [ cfg.prompt_format.user_prefix ++ "hi" ++ cfg.prompt_format.user_suffix,
           cfg.prompt_format.assistant_prefix ++ "hello" ++ cfg.prompt_format.assistant_suffix,
           cfg.prompt_format.user_prefix ++ q ++ cfg.prompt_format.user_suffix,
           cfg.prompt_format.assistant_prefix]) := by
  have htg : pyTruthyStr (some g) = true := by
    simpa [pyTruthyStr] using hg
  have hmg : (initSession (some 1)
      [⟨"user", "hi", mgu⟩, ⟨"assistant", "hello", some g⟩]).model_group =
      some g := by
    simp [initSession, pyTruthyChatId, replayedModelGroup, List.filter, htg]
  refine ⟨hmg, ?_, ?_⟩
  · rw [hmg]
    simp [selectModelGroup, htg]
  · simp [initSession, pyTruthyChatId, loadedHistory, formatPrompt,
      entryFragments]

/-- Witness for `persisted_session_roundtrip` with group `"programming"` and
the concrete template `cfgT`. -/
theorem persisted_session_roundtrip_witness :
    (initSession (some 1)
        [⟨"user", "hi", none⟩, ⟨"assistant", "hello", some "programming"⟩]).model_group =
      some "programming" ∧
    selectModelGroup
      (initSession (some 1)
        [⟨"user", "hi", none⟩,
         ⟨"assistant", "hello", some "programming"⟩]).model_group false =
      ("programming", false) ∧
    formatPrompt cfgT
      (initSession (some 1)
        [⟨"user", "hi", none⟩,
         ⟨"assistant", "hello", some "programming"⟩]).conversation_history
      "next" =
      String.intercalate "\n"
        (systemFragments cfgT ++
         [ cfgT.prompt_format.user_prefix ++ "hi" ++ cfgT.prompt_format.user_suffix,
           cfgT.prompt_format.assistant_prefix ++ "hello" ++ cfgT.prompt_format.assistant_suffix,
           cfgT.prompt_format.user_prefix ++ "next" ++ cfgT.prompt_format.user_suffix,
           cfgT.prompt_format.assistant_prefix]) :=
  persisted_session_roundtrip "programming" none cfgT "next" false (by decide)
